import Mathlib

/-!
Verification of the valuation-weighting, recommendation-rendering and
stock-search logic of the investment-analysis frontend, together with the
spec-documented DCF contract. Numbers are modelled as exact rationals (ℚ);
the JavaScript decimal literals (1.3, 0.8, 10e9, …) denote the same rational
values.
-/

namespace InvestmentAnalysis

/-- The closed set of valuation method tags (frontend type `ValuationMethod`);
the component code keys its tables by the corresponding strings, so the
tables below take a `String`. -/
inductive ValuationMethodTag
  | comparable_companies_analysis
  | discounted_cash_flow
  | precedent_transactions_analysis
  | asset_based_valuation
deriving DecidableEq

/-- The closed set of recommendation levels (frontend type `RecommendationType`). -/
inductive RecommendationType
  | strong_buy
  | buy
  | hold
  | sell
  | strong_sell
deriving DecidableEq

/-- Models the JavaScript idiom `x || 1.0` applied to an optional numeric
table lookup: an absent entry (`undefined`) and the falsy number `0` both
fall back to the default coefficient `1.0`. -/
def jsOrOne : Option ℚ → ℚ
  | none => 1
  | some v => if v = 0 then 1 else v

/-- The nested table `sectorConfigs[sector]?.[method]` of the display-side
`getSectorSpecificWeights` (AnalysisResult, first copy, lines 193–218):
four configured sectors, size-dependent entries for Technology DCF
(large-cap) and Technology PTA (mega-cap). -/
def sectorConfigsLookup (sector method : String) (isLargeCap isMegaCap : Bool) : Option ℚ :=
  if sector = "Technology" then
    if method = "discounted_cash_flow" then some (if isLargeCap then 1.3 else 1.0)
    else if method = "comparable_companies_analysis" then some 1.2
    else if method = "precedent_transactions_analysis" then some (if isMegaCap then 0.8 else 1.1)
    else if method = "asset_based_valuation" then some 0.3
    else none
  else if sector = "Financial Services" then
    if method = "discounted_cash_flow" then some 0.8
    else if method = "comparable_companies_analysis" then some 1.4
    else if method = "precedent_transactions_analysis" then some 1.2
    else if method = "asset_based_valuation" then some 1.1
    else none
  else if sector = "Healthcare" then
    if method = "discounted_cash_flow" then some 1.4
    else if method = "comparable_companies_analysis" then some 1.1
    else if method = "precedent_transactions_analysis" then some 1.0
    else if method = "asset_based_valuation" then some 0.7
    else none
  else if sector = "Utilities" then
    if method = "discounted_cash_flow" then some 1.6
    else if method = "comparable_companies_analysis" then some 1.0
    else if method = "precedent_transactions_analysis" then some 0.8
    else if method = "asset_based_valuation" then some 1.2
    else none
  else none

/-- `getSectorSpecificWeights` (AnalysisResult, first copy, lines 192–220):
`return sectorConfigs[sector]?.[method] || 1.0`. -/
def getSectorSpecificWeights (sector method : String) (isLargeCap isMegaCap : Bool) : ℚ :=
  jsOrOne (sectorConfigsLookup sector method isLargeCap isMegaCap)

/-- The nested table of `localGetSectorSpecificWeights` (AnalysisResult,
first copy, lines 533–546): a re-declared copy of the table that configures
only the Technology and Financial Services sectors. -/
def localSectorConfigsLookup (sector method : String) (isLargeCap isMegaCap : Bool) :
    Option ℚ :=
  if sector = "Technology" then
    if method = "discounted_cash_flow" then some (if isLargeCap then 1.3 else 1.0)
    else if method = "comparable_companies_analysis" then some 1.2
    else if method = "precedent_transactions_analysis" then some (if isMegaCap then 0.8 else 1.1)
    else if method = "asset_based_valuation" then some 0.3
    else none
  else if sector = "Financial Services" then
    if method = "discounted_cash_flow" then some 0.8
    else if method = "comparable_companies_analysis" then some 1.4
    else if method = "precedent_transactions_analysis" then some 1.2
    else if method = "asset_based_valuation" then some 1.1
    else none
  else none

/-- `localGetSectorSpecificWeights` (AnalysisResult, first copy, lines
532–548): `return sectorConfigs[sector]?.[method] || 1.0` over the local
two-sector table. -/
def localGetSectorSpecificWeights (sector method : String) (isLargeCap isMegaCap : Bool) : ℚ :=
  jsOrOne (localSectorConfigsLookup sector method isLargeCap isMegaCap)

/-- `companyProfile.isLargeCap` (line 187): `market_cap > 10e9`. -/
def isLargeCapOf (marketCap : ℚ) : Bool := marketCap > 10e9

/-- `companyProfile.isMegaCap` (line 188): `market_cap > 200e9`. -/
def isMegaCapOf (marketCap : ℚ) : Bool := marketCap > 200e9

/-- One entry of `data.valuation_methods` (frontend type `ValuationResult`):
the fields the weighting pipeline reads. -/
structure MethodResult where
  method : String
  confidence_level : ℚ
  target_price : ℚ
deriving DecidableEq

/-- `rawWeight` of one method in `methodCalcs` (lines 551–563):
`method.confidence_level * coefficient`, with the coefficient taken from
`localGetSectorSpecificWeights`. -/
def methodRawWeight (sector : String) (isLargeCap isMegaCap : Bool) (m : MethodResult) : ℚ :=
  m.confidence_level * localGetSectorSpecificWeights sector m.method isLargeCap isMegaCap

/-- `totalRawWeight` (line 585): `methodCalcs.reduce((sum, calc) => sum + calc.rawWeight, 0)`. -/
def totalRawWeight (sector : String) (isLargeCap isMegaCap : Bool)
    (methods : List MethodResult) : ℚ :=
  (methods.map (methodRawWeight sector isLargeCap isMegaCap)).sum

/-- `normalizedWeight` of one method in `normalizedCalcs` (line 590):
`calc.rawWeight / totalRawWeight`. -/
def normalizedWeight (sector : String) (isLargeCap isMegaCap : Bool)
    (methods : List MethodResult) (m : MethodResult) : ℚ :=
  methodRawWeight sector isLargeCap isMegaCap m / totalRawWeight sector isLargeCap isMegaCap methods

/-- `calculatedTargetPrice` (lines 595–597):
`normalizedCalcs.reduce((sum, calc) => sum + calc.targetPrice * calc.normalizedWeight, 0)`. -/
def calculatedTargetPrice (sector : String) (isLargeCap isMegaCap : Bool)
    (methods : List MethodResult) : ℚ :=
  (methods.map (fun m =>
    m.target_price * normalizedWeight sector isLargeCap isMegaCap methods m)).sum

/-- `getRecommendationColor` (both component copies, lines 18–27 and 953–962):
the badge color classes keyed on the recommendation type. The source's
`default` branch is unreachable because the TypeScript `RecommendationType`
union is closed. -/
def getRecommendationColor : RecommendationType → String
  | RecommendationType.strong_buy => "bg-green-100 text-green-800 border-green-200"
  | RecommendationType.buy => "bg-green-50 text-green-700 border-green-100"
  | RecommendationType.hold => "bg-yellow-50 text-yellow-700 border-yellow-100"
  | RecommendationType.sell => "bg-red-50 text-red-700 border-red-100"
  | RecommendationType.strong_sell => "bg-red-100 text-red-800 border-red-200"

/-- The frontend type `InvestmentRecommendation`: the fields the component reads. -/
structure Recommendation where
  type : RecommendationType
  display_name : String
  overall_score : ℚ
  risk_level : String
  time_horizon : String

/-- The fields of the report `data` that the key-metrics section of the
component reads. -/
structure ReportData where
  symbol : String
  company_name : String
  current_price : ℚ
  target_price : ℚ
  potential_return : ℚ
  recommendation : Recommendation

/-- The recommendation badge of the first component copy (lines 101–109):
its color class is `getRecommendationColor(data.recommendation.type)` and its
text is `data.recommendation.display_name`. -/
def recommendationBadge (d : ReportData) : String × String :=
  (getRecommendationColor d.recommendation.type, d.recommendation.display_name)

/-- The color class of the separately rendered potential-return figure
(lines 16 and 89–91): `isPositive = data.potential_return >= 0` selects green
or red. -/
def returnFigureColorClass (d : ReportData) : String :=
  if d.potential_return ≥ 0 then "text-green-600" else "text-red-600"

/-- The overall-score figure of the first component copy (line 786):
`data.recommendation.overall_score.toFixed(0)`, rendered as `<n>/100`;
`toFixed(0)` rounds to the nearest integer. -/
def overallScoreFigureFull (rec : Recommendation) : ℤ :=
  round rec.overall_score

/-- The score figure inside the recommendation badge of the second component
copy (line 1045): `(data.recommendation.overall_score * 100).toFixed(0)`. -/
def overallScoreFigureBadge (rec : Recommendation) : ℤ :=
  round (rec.overall_score * 100)

/-- The error taxonomy of the analyzers (spec, section 7). -/
inductive AnalyzerError
  | missingData
  | invalidAssumption
  | emptyPeerSet
deriving DecidableEq

/-- Modelled from the spec: the DCF analyzer lives in the backend, which is
not under src/. Spec section 4.2: net debt = total debt − total cash. -/
def dcfNetDebt (totalDebt totalCash : ℚ) : ℚ :=
  totalDebt - totalCash

/-- Modelled from the spec: equity value = enterprise value − net debt
(spec, section 4.2). -/
def dcfEquityValue (enterpriseValue totalDebt totalCash : ℚ) : ℚ :=
  enterpriseValue - dcfNetDebt totalDebt totalCash

/-- The DCF terminal-value assumptions (spec, section 4.2). -/
structure DcfAssumptions where
  finalYearFcf : ℚ
  wacc : ℚ
  perpetualGrowth : ℚ

/-- Modelled from the spec: the Gordon-growth terminal value of the backend
DCF analyzer (not under src/), with its numeric precondition (spec,
section 4.2): if the perpetual growth rate is ≥ WACC the analyzer fails with
an InvalidAssumption error rather than dividing. -/
def gordonTerminalValue (a : DcfAssumptions) : Except AnalyzerError ℚ :=
  if a.wacc ≤ a.perpetualGrowth then Except.error AnalyzerError.invalidAssumption
  else Except.ok (a.finalYearFcf * (1 + a.perpetualGrowth) / (a.wacc - a.perpetualGrowth))

/-- Modelled from the spec: the DCF analyzer first computes the terminal
value and then the rest of the valuation (discounting, EV bridge, per-share
value), abstracted here as `finish`; a terminal-value failure is the
analyzer's failure. -/
def dcfEvaluate (a : DcfAssumptions) (finish : ℚ → MethodResult) :
    Except AnalyzerError MethodResult :=
  match gordonTerminalValue a with
  | Except.error e => Except.error e
  | Except.ok tv => Except.ok (finish tv)

/-- Modelled from the spec (section 7): individual analyzer failures are
caught at the orchestration boundary and excluded from the result set; they
never abort sibling analyzers. -/
def collectResults (outcomes : List (Except AnalyzerError MethodResult)) :
    List MethodResult :=
  outcomes.filterMap fun o =>
    match o with
    | Except.ok r => some r
    | Except.error _ => none

/-- One entry of the `dataSources` record of the stock-search component: the
field `handleSubmit` reads. -/
structure DataSource where
  available : Bool

/-- `dataSources[selectedDataSource]?.available` (stock-search, line 56): a
missing key (`undefined` through optional chaining) is falsy. -/
def sourceIsAvailable (dataSources : List (String × DataSource)) (key : String) : Bool :=
  match dataSources.lookup key with
  | some s => s.available
  | none => false

/-- `handleSubmit` (stock-search, lines 41–62), with the `validateSymbol`
helper imported from `@/lib/utils` (not under src/) kept abstract as a parameter.
Returns the arguments of the `onAnalyze` invocation, or `none` when a check
fails and the handler returns early. -/
def handleSubmit (validateFn : String → Bool) (dataSources : List (String × DataSource))
    (selectedDataSource symbol : String) : Option (String × String × String) :=
  let cleanSymbol := symbol.trim.toUpper
  if cleanSymbol = "" then none
  else if !(validateFn cleanSymbol) then none
  else if !(sourceIsAvailable dataSources selectedDataSource) then none
  else some (cleanSymbol, "full", selectedDataSource)

/-- Auxiliary: a constant divisor distributes out of a mapped list sum. -/
theorem list_sum_map_div {α : Type} (l : List α) (f : α → ℚ) (c : ℚ) :
    (l.map (fun x => f x / c)).sum = (l.map f).sum / c := by
  induction l with
  | nil => simp
  | cons a t ih => simp [ih, add_div]

end InvestmentAnalysis

namespace InvestmentAnalysis

/-- Claim C1: for every non-empty set of valuation methods whose total raw
weight (confidence × sector coefficient, summed) is positive, the normalized
weights `rawWeight / totalRawWeight` sum to exactly 1. -/
theorem normalized_weights_sum_to_one (sector : String) (isLargeCap isMegaCap : Bool)
    (methods : List MethodResult) (hne : methods ≠ [])
    (hpos : 0 < totalRawWeight sector isLargeCap isMegaCap methods) :
    (methods.map (normalizedWeight sector isLargeCap isMegaCap methods)).sum = 1 := by
  have hT : totalRawWeight sector isLargeCap isMegaCap methods ≠ 0 := ne_of_gt hpos
  unfold normalizedWeight
  rw [list_sum_map_div]
  exact div_self hT

/-- Claim C1 witness: a concrete two-method Technology run. -/
theorem normalized_weights_sum_to_one_witness :
    (([⟨"discounted_cash_flow", 0.8, 150⟩, ⟨"comparable_companies_analysis", 0.7, 140⟩] :
        List MethodResult) ≠ [] ∧
      0 < totalRawWeight "Technology" true false
        [⟨"discounted_cash_flow", 0.8, 150⟩, ⟨"comparable_companies_analysis", 0.7, 140⟩]) ∧
    (([⟨"discounted_cash_flow", 0.8, 150⟩, ⟨"comparable_companies_analysis", 0.7, 140⟩] :
        List MethodResult).map (normalizedWeight "Technology" true false
          [⟨"discounted_cash_flow", 0.8, 150⟩, ⟨"comparable_companies_analysis", 0.7, 140⟩])).sum
      = 1 :=
  ⟨⟨by simp, by
      simp +decide [totalRawWeight, methodRawWeight, localGetSectorSpecificWeights,
        localSectorConfigsLookup, jsOrOne]
      norm_num⟩,
    normalized_weights_sum_to_one "Technology" true false _ (by simp) (by
      simp +decide [totalRawWeight, methodRawWeight, localGetSectorSpecificWeights,
        localSectorConfigsLookup, jsOrOne]
      norm_num)⟩

/-- Claim C2: if exactly one method is present and its confidence level and
sector coefficient are positive, its normalized weight is exactly 1 and the
weighted target price equals its target price exactly. -/
theorem single_method_idempotence (sector : String) (isLargeCap isMegaCap : Bool)
    (m : MethodResult) (hconf : 0 < m.confidence_level)
    (hcoef : 0 < localGetSectorSpecificWeights sector m.method isLargeCap isMegaCap) :
    normalizedWeight sector isLargeCap isMegaCap [m] m = 1 ∧
    calculatedTargetPrice sector isLargeCap isMegaCap [m] = m.target_price := by
  have hraw : methodRawWeight sector isLargeCap isMegaCap m ≠ 0 := by
    unfold methodRawWeight
    exact ne_of_gt (mul_pos hconf hcoef)
  have htot : totalRawWeight sector isLargeCap isMegaCap [m]
      = methodRawWeight sector isLargeCap isMegaCap m := by
    simp [totalRawWeight]
  have h1 : normalizedWeight sector isLargeCap isMegaCap [m] m = 1 := by
    rw [normalizedWeight, htot]
    exact div_self hraw
  refine ⟨h1, ?_⟩
  simp [calculatedTargetPrice, h1]

/-- Claim C2 witness: a single PTA result with the fixed confidence 0.65. -/
theorem single_method_idempotence_witness :
    ((0 : ℚ) < 0.65 ∧
      0 < localGetSectorSpecificWeights "Technology" "precedent_transactions_analysis"
        true false) ∧
    (normalizedWeight "Technology" true false
        [⟨"precedent_transactions_analysis", 0.65, 120⟩]
        ⟨"precedent_transactions_analysis", 0.65, 120⟩ = 1 ∧
      calculatedTargetPrice "Technology" true false
        [⟨"precedent_transactions_analysis", 0.65, 120⟩] = 120) :=
  ⟨⟨by norm_num, by
      simp +decide [localGetSectorSpecificWeights, localSectorConfigsLookup, jsOrOne]
      norm_num⟩,
    single_method_idempotence "Technology" true false
      ⟨"precedent_transactions_analysis", 0.65, 120⟩ (by norm_num) (by
        simp +decide [localGetSectorSpecificWeights, localSectorConfigsLookup, jsOrOne]
        norm_num)⟩

/-- Claim C3: the sector-coefficient lookup falls back to the default 1.0 for
every unconfigured sector, and for every configured sector with an
unconfigured method; it is total, returning some rational for every input. -/
theorem sector_lookup_defaults (sector method : String) (isLargeCap isMegaCap : Bool) :
    (sector ∉ (["Technology", "Financial Services", "Healthcare", "Utilities"] : List String) →
      getSectorSpecificWeights sector method isLargeCap isMegaCap = 1) ∧
    (method ∉ (["discounted_cash_flow", "comparable_companies_analysis",
        "precedent_transactions_analysis", "asset_based_valuation"] : List String) →
      getSectorSpecificWeights sector method isLargeCap isMegaCap = 1) ∧
    ∃ q : ℚ, getSectorSpecificWeights sector method isLargeCap isMegaCap = q := by
  refine ⟨?_, ?_, ⟨_, rfl⟩⟩
  · intro h
    simp only [List.mem_cons, List.not_mem_nil, or_false, not_or] at h
    obtain ⟨h1, h2, h3, h4⟩ := h
    simp [getSectorSpecificWeights, sectorConfigsLookup, jsOrOne, h1, h2, h3, h4]
  · intro h
    simp only [List.mem_cons, List.not_mem_nil, or_false, not_or] at h
    obtain ⟨h1, h2, h3, h4⟩ := h
    simp [getSectorSpecificWeights, sectorConfigsLookup, jsOrOne, h1, h2, h3, h4]

/-- Claim C3 witness: the unconfigured sector Energy, and the configured
sector Technology with an unconfigured method string, both yield 1. -/
theorem sector_lookup_defaults_witness :
    (("Energy" : String) ∉
        (["Technology", "Financial Services", "Healthcare", "Utilities"] : List String) ∧
      getSectorSpecificWeights "Energy" "discounted_cash_flow" false false = 1) ∧
    (("dividend_discount_model" : String) ∉
        (["discounted_cash_flow", "comparable_companies_analysis",
          "precedent_transactions_analysis", "asset_based_valuation"] : List String) ∧
      getSectorSpecificWeights "Technology" "dividend_discount_model" true true = 1) :=
  ⟨⟨by decide, (sector_lookup_defaults "Energy" "discounted_cash_flow" false false).1
      (by decide)⟩,
    ⟨by decide, (sector_lookup_defaults "Technology" "dividend_discount_model" true true).2.1
      (by decide)⟩⟩

/-- Claim C4: large-cap means market cap strictly above 10e9 and mega-cap
strictly above 200e9, and in the Technology sector only the DCF and PTA
entries depend on the size tier: DCF is 1.3 for large-cap and 1.0 otherwise,
PTA is 0.8 for mega-cap and 1.1 otherwise, while CCA is 1.2 and asset-based
is 0.3 for every size tier. -/
theorem technology_size_tier_coefficients (marketCap : ℚ) (isLargeCap isMegaCap : Bool) :
    (isLargeCapOf marketCap = true ↔ marketCap > 10e9) ∧
    (isMegaCapOf marketCap = true ↔ marketCap > 200e9) ∧
    getSectorSpecificWeights "Technology" "discounted_cash_flow" isLargeCap isMegaCap
      = (if isLargeCap then 1.3 else 1.0) ∧
    getSectorSpecificWeights "Technology" "precedent_transactions_analysis" isLargeCap isMegaCap
      = (if isMegaCap then 0.8 else 1.1) ∧
    getSectorSpecificWeights "Technology" "comparable_companies_analysis" isLargeCap isMegaCap
      = 1.2 ∧
    getSectorSpecificWeights "Technology" "asset_based_valuation" isLargeCap isMegaCap = 0.3 := by
  refine ⟨?_, ?_, ?_, ?_, ?_, ?_⟩
  · simp [isLargeCapOf]
  · simp [isMegaCapOf]
  all_goals
    cases isLargeCap <;> cases isMegaCap <;>
      simp +decide [getSectorSpecificWeights, sectorConfigsLookup, jsOrOne] <;> norm_num

/-- Claim C5 counter-evidence: for the Healthcare sector the display-side
function returns the configured coefficient 1.4 for DCF, while the re-declared
step-by-step function, whose table omits Healthcare and Utilities, falls back
to 1.0 — the two functions are not extensionally equal. -/
theorem sector_weight_functions_disagree :
    getSectorSpecificWeights "Healthcare" "discounted_cash_flow" false false = 1.4 ∧
    localGetSectorSpecificWeights "Healthcare" "discounted_cash_flow" false false = 1 ∧
    getSectorSpecificWeights "Healthcare" "discounted_cash_flow" false false ≠
      localGetSectorSpecificWeights "Healthcare" "discounted_cash_flow" false false := by
  refine ⟨?_, ?_, ?_⟩ <;>
    simp +decide [getSectorSpecificWeights, localGetSectorSpecificWeights,
      sectorConfigsLookup, localSectorConfigsLookup, jsOrOne] <;>
    norm_num

/-- Claim C6: the recommendation badge (color class and text) is a function of
the recommendation type and display name alone; two reports that agree on
those render identical badges no matter how their potential returns differ. -/
theorem recommendation_badge_ignores_return (d₁ d₂ : ReportData)
    (htype : d₁.recommendation.type = d₂.recommendation.type)
    (hname : d₁.recommendation.display_name = d₂.recommendation.display_name) :
    recommendationBadge d₁ = recommendationBadge d₂ := by
  simp [recommendationBadge, htype, hname]

/-- Claim C6 witness: two reports with opposite-sign potential returns but the
same recommendation type and display name render the same badge. -/
theorem recommendation_badge_ignores_return_witness :
    recommendationBadge
        ⟨"AAPL", "Apple Inc.", 200, 210, 5, ⟨RecommendationType.hold, "Hold", 50, "medium", "12m"⟩⟩
      = recommendationBadge
        ⟨"MSFT", "Microsoft", 400, 380, -5, ⟨RecommendationType.hold, "Hold", 50, "medium", "12m"⟩⟩ :=
  recommendation_badge_ignores_return _ _ rfl rfl

/-- Claim C7 counter-evidence: for an overall score of 75 on the spec's 0–100
scale, the first component copy renders the figure 75 while the second copy
renders 7500 — the two copies do not render the same overall-score figure,
because the second multiplies the score by 100. -/
theorem overall_score_render_mismatch :
    overallScoreFigureFull ⟨RecommendationType.buy, "Buy", 75, "medium", "12m"⟩ = 75 ∧
    overallScoreFigureBadge ⟨RecommendationType.buy, "Buy", 75, "medium", "12m"⟩ = 7500 ∧
    overallScoreFigureFull ⟨RecommendationType.buy, "Buy", 75, "medium", "12m"⟩ ≠
      overallScoreFigureBadge ⟨RecommendationType.buy, "Buy", 75, "medium", "12m"⟩ := by
  refine ⟨?_, ?_, ?_⟩ <;> norm_num [overallScoreFigureFull, overallScoreFigureBadge]

/-- Claim C8: the DCF equity bridge uses net debt = total debt − total cash;
for total debt 100e9 and total cash 30e9 the net debt is 70e9, never 100e9,
and equity value is enterprise value minus that 70e9. -/
theorem dcf_net_debt_regression (enterpriseValue : ℚ) :
    dcfNetDebt 100e9 30e9 = 70e9 ∧
    dcfNetDebt 100e9 30e9 ≠ 100e9 ∧
    dcfEquityValue enterpriseValue 100e9 30e9 = enterpriseValue - 70e9 := by
  refine ⟨by norm_num [dcfNetDebt], by norm_num [dcfNetDebt],
    by norm_num [dcfEquityValue, dcfNetDebt]⟩

/-- Claim C9: whenever the perpetual growth rate is at least WACC, the DCF
analyzer fails with the InvalidAssumption error and contributes no valuation
result, while the collected results of the sibling analyzers are unchanged. -/
theorem dcf_invalid_assumption_isolated (a : DcfAssumptions) (finish : ℚ → MethodResult)
    (others : List (Except AnalyzerError MethodResult))
    (h : a.perpetualGrowth ≥ a.wacc) :
    dcfEvaluate a finish = Except.error AnalyzerError.invalidAssumption ∧
    collectResults (dcfEvaluate a finish :: others) = collectResults others := by
  have hg : gordonTerminalValue a = Except.error AnalyzerError.invalidAssumption := by
    simp [gordonTerminalValue, h]
  constructor
  · simp [dcfEvaluate, hg]
  · simp [collectResults, dcfEvaluate, hg]

/-- Claim C9 witness: growth equal to WACC fails the DCF analyzer and leaves
a sibling PTA result untouched. -/
theorem dcf_invalid_assumption_isolated_witness :
    ((0.08 : ℚ) ≥ 0.08) ∧
    (dcfEvaluate ⟨100, 0.08, 0.08⟩ (fun tv => ⟨"discounted_cash_flow", 1, tv⟩)
        = Except.error AnalyzerError.invalidAssumption ∧
      collectResults (dcfEvaluate ⟨100, 0.08, 0.08⟩ (fun tv => ⟨"discounted_cash_flow", 1, tv⟩)
          :: [Except.ok ⟨"precedent_transactions_analysis", 0.65, 50⟩])
        = collectResults [Except.ok ⟨"precedent_transactions_analysis", 0.65, 50⟩]) :=
  ⟨le_refl _,
    dcf_invalid_assumption_isolated ⟨100, 0.08, 0.08⟩ _ _ (le_refl _)⟩

/-- Claim C10: the submit handler invokes the analyze callback exactly when
the trimmed, upper-cased symbol is non-empty, passes validation, and the
selected data source is available; the invocation passes that trimmed,
upper-cased symbol, and any failed check yields no invocation. -/
theorem handleSubmit_characterization (validateFn : String → Bool)
    (dataSources : List (String × DataSource)) (selectedDataSource symbol : String) :
    handleSubmit validateFn dataSources selectedDataSource symbol =
      if symbol.trim.toUpper ≠ "" ∧ validateFn (symbol.trim.toUpper) = true ∧
          sourceIsAvailable dataSources selectedDataSource = true
      then some (symbol.trim.toUpper, "full", selectedDataSource)
      else none := by
  unfold handleSubmit
  split_ifs <;> simp_all

end InvestmentAnalysis
